import Mathlib

/-!
Verification of the Strangler Fig proxy (src/microservices/proxy/main.py)
and the events service (src/microservices/events/main.py).

The proxy's routing, header filtering and error mapping are embedded as
pure Lean functions; randomness (`random.randint(0, 99)`) is an explicit
`Nat` argument, the downstream call's outcome is an explicit sum type,
and the process configuration (read once from the environment) is a record.
-/

namespace Proxy

/-- Configuration loaded once in `ProxyHandler.__init__` from the
environment.  `movies_migration_percent` is `int(os.getenv(...))`, an
arbitrary Python integer, hence `Int`. -/
structure ProxyConfig where
  monolith_url : String
  movies_service_url : String
  events_service_url : String
  gradual_migration : Bool
  movies_migration_percent : Int

/-- Python's `str.startswith`: the characters of `p` are an initial
segment of the characters of `s`. -/
def starts_with (s p : String) : Bool :=
  p.data.isPrefixOf s.data

/-- `ProxyHandler._determine_target`: maps a request path to the
destination URL.  `r` is the value drawn by `random.randint(0, 99)`
(consulted only on the gradual-migration branch). -/
def determine_target (cfg : ProxyConfig) (r : Nat) (path : String) : String :=
  if path = "/api/movies/health" then
    cfg.movies_service_url ++ path
  else if starts_with path "/api/movies" then
    if cfg.gradual_migration then
      if (r : Int) < cfg.movies_migration_percent then
        cfg.movies_service_url ++ path
      else
        cfg.monolith_url ++ path
    else
      cfg.monolith_url ++ path
  else if starts_with path "/api/events" then
    cfg.events_service_url ++ path
  else
    cfg.monolith_url ++ path

/-- Outcome of `ProxyHandler._handle_request` before any forwarding:
either the local liveness answer, the defensive 404 branch
(`if not target_url`), or a forward to the computed target URL. -/
inductive HandleResult where
  | health : HandleResult
  | notFound : HandleResult
  | proxied : String → HandleResult
deriving DecidableEq, Repr

/-- `ProxyHandler._handle_request`: the local `/health` check, then the
routing decision; an empty (falsy) target string takes the 404 branch. -/
def handle_request (cfg : ProxyConfig) (r : Nat) (path : String) : HandleResult :=
  if path = "/health" then
    HandleResult.health
  else
    let target_url := determine_target cfg r path
    if target_url = "" then
      HandleResult.notFound
    else
      HandleResult.proxied target_url

/-- The four HTTP methods the handler class implements
(`do_GET`, `do_POST`, `do_PUT`, `do_DELETE`). -/
inductive Method where
  | GET : Method
  | POST : Method
  | PUT : Method
  | DELETE : Method
deriving DecidableEq, Repr

/-- Dispatch of `do_GET` / `do_POST` / `do_PUT` / `do_DELETE`: each method
handler calls `_handle_request`, which reads only the path. -/
def handle_dispatch (cfg : ProxyConfig) (r : Nat) (m : Method) (path : String) :
    HandleResult :=
  match m with
  | Method.GET => handle_request cfg r path
  | Method.POST => handle_request cfg r path
  | Method.PUT => handle_request cfg r path
  | Method.DELETE => handle_request cfg r path

end Proxy

namespace Proxy

/-- C1: the movies health-check path always routes to the movies service,
for every configuration and every random draw. -/
theorem health_path_routes_to_movies (cfg : ProxyConfig) (r : Nat) :
    determine_target cfg r "/api/movies/health" =
      cfg.movies_service_url ++ "/api/movies/health" := by
  simp [determine_target]

/-- C3: with gradual migration disabled, every path under the movies
prefix other than the health path routes to the monolith, independent of
the percentage and the random draw. -/
theorem disabled_migration_routes_to_monolith (cfg : ProxyConfig) (r : Nat)
    (path : String)
    (hdis : cfg.gradual_migration = false)
    (hpre : starts_with path "/api/movies" = true)
    (hne : path ≠ "/api/movies/health") :
    determine_target cfg r path = cfg.monolith_url ++ path := by
  simp [determine_target, hne, hpre, hdis]

/-- Witness for C3 at a concrete configuration and path. -/
theorem disabled_migration_routes_to_monolith_witness :
    determine_target
      ⟨"http://monolith:8080", "http://movies-service:8081",
        "http://events-service:8082", false, 50⟩ 7 "/api/movies/42" =
      "http://monolith:8080" ++ "/api/movies/42" :=
  disabled_migration_routes_to_monolith _ 7 _ rfl (by decide) (by decide)

/-- C4: any path that is not the movies health path and starts with
neither the movies prefix nor the events prefix falls back to the
monolith, for every configuration and random draw. -/
theorem fallback_routes_to_monolith (cfg : ProxyConfig) (r : Nat)
    (path : String)
    (hh : path ≠ "/api/movies/health")
    (hm : starts_with path "/api/movies" = false)
    (he : starts_with path "/api/events" = false) :
    determine_target cfg r path = cfg.monolith_url ++ path := by
  simp [determine_target, hh, hm, he]

/-- Witness for C4 at a concrete configuration and path. -/
theorem fallback_routes_to_monolith_witness :
    determine_target
      ⟨"http://monolith:8080", "http://movies-service:8081",
        "http://events-service:8082", true, 100⟩ 0 "/api/users/1" =
      "http://monolith:8080" ++ "/api/users/1" :=
  fallback_routes_to_monolith _ 0 _ (by decide) (by decide) (by decide)

/-- C5: any path under the events prefix (not the movies health path and
not under the movies prefix) routes to the events service
unconditionally, regardless of flag, percentage or draw. -/
theorem events_prefix_routes_to_events (cfg : ProxyConfig) (r : Nat)
    (path : String)
    (hh : path ≠ "/api/movies/health")
    (hm : starts_with path "/api/movies" = false)
    (he : starts_with path "/api/events" = true) :
    determine_target cfg r path = cfg.events_service_url ++ path := by
  simp [determine_target, hh, hm, he]

/-- Witness for C5 at a concrete configuration and path. -/
theorem events_prefix_routes_to_events_witness :
    determine_target
      ⟨"http://monolith:8080", "http://movies-service:8081",
        "http://events-service:8082", true, 0⟩ 3 "/api/events/user" =
      "http://events-service:8082" ++ "/api/events/user" :=
  events_prefix_routes_to_events _ 3 _ (by decide) (by decide) (by decide)

/-- C2: with gradual migration enabled, on any non-health movies path and
any draw r ∈ [0,99]: percent 0 always yields the monolith, percent 100
always yields the movies service. -/
theorem percent_extremes_deterministic (cfg : ProxyConfig) (r : Nat)
    (path : String)
    (hen : cfg.gradual_migration = true)
    (hpre : starts_with path "/api/movies" = true)
    (hne : path ≠ "/api/movies/health")
    (hr : r ≤ 99) :
    (cfg.movies_migration_percent = 0 →
      determine_target cfg r path = cfg.monolith_url ++ path) ∧
    (cfg.movies_migration_percent = 100 →
      determine_target cfg r path = cfg.movies_service_url ++ path) := by
  constructor
  · intro h0
    have hnlt : ¬ ((r : Int) < 0) := Int.not_lt.mpr (Int.natCast_nonneg r)
    simp [determine_target, hne, hpre, hen, h0, hnlt]
  · intro h100
    have hlt : (r : Int) < 100 := by exact_mod_cast Nat.lt_succ_of_le hr
    simp [determine_target, hne, hpre, hen, h100, hlt]

/-- Witness for C2 at a concrete path and draw (both percent values). -/
theorem percent_extremes_deterministic_witness :
    (determine_target
        ⟨"http://monolith:8080", "http://movies-service:8081",
          "http://events-service:8082", true, 0⟩ 99 "/api/movies/1" =
      "http://monolith:8080" ++ "/api/movies/1") ∧
    (determine_target
        ⟨"http://monolith:8080", "http://movies-service:8081",
          "http://events-service:8082", true, 100⟩ 99 "/api/movies/1" =
      "http://movies-service:8081" ++ "/api/movies/1") :=
  ⟨(percent_extremes_deterministic _ 99 _ rfl (by decide) (by decide)
      (by decide)).1 rfl,
   (percent_extremes_deterministic _ 99 _ rfl (by decide) (by decide)
      (by decide)).2 rfl⟩

/-- Appending a nonempty string on the right yields a nonempty string. -/
theorem append_ne_empty_of_right_ne (a b : String) (hb : b ≠ "") :
    a ++ b ≠ "" := by
  intro h
  apply hb
  apply String.ext
  have hd : a.data ++ b.data = [] := by
    have : (a ++ b).data = ("" : String).data := by rw [h]
    simpa [String.data_append] using this
  simpa using (List.append_eq_nil.mp hd).2

/-- C9: the router is total and never yields a falsy target on a
(necessarily nonempty) HTTP request path, so the defensive 404 branch of
the handler is unreachable. -/
theorem routing_total_not_found_unreachable (cfg : ProxyConfig) (r : Nat)
    (path : String) (hp : path ≠ "") :
    determine_target cfg r path ≠ "" ∧
    handle_request cfg r path ≠ HandleResult.notFound := by
  have key : determine_target cfg r path ≠ "" := by
    unfold determine_target
    split
    · exact append_ne_empty_of_right_ne _ _ hp
    · split
      · split
        · split
          · exact append_ne_empty_of_right_ne _ _ hp
          · exact append_ne_empty_of_right_ne _ _ hp
        · exact append_ne_empty_of_right_ne _ _ hp
      · split
        · exact append_ne_empty_of_right_ne _ _ hp
        · exact append_ne_empty_of_right_ne _ _ hp
  refine ⟨key, ?_⟩
  unfold handle_request
  split
  · simp
  · simp [key]

/-- Witness for C9 at a concrete configuration, draw and path. -/
theorem routing_total_not_found_unreachable_witness :
    determine_target
        ⟨"http://monolith:8080", "http://movies-service:8081",
          "http://events-service:8082", false, 0⟩ 0 "/x" ≠ "" ∧
    handle_request
        ⟨"http://monolith:8080", "http://movies-service:8081",
          "http://events-service:8082", false, 0⟩ 0 "/x" ≠
      HandleResult.notFound :=
  routing_total_not_found_unreachable _ 0 "/x" (by decide)

/-- C10: the routing decision (and hence the destination URL) does not
depend on which of the four handled HTTP methods carried the request. -/
theorem routing_ignores_method (cfg : ProxyConfig) (r : Nat)
    (m₁ m₂ : Method) (path : String) :
    handle_dispatch cfg r m₁ path = handle_dispatch cfg r m₂ path := by
  cases m₁ <;> cases m₂ <;> rfl

/-- Python's `str.lower`, character by character. -/
def lower_str (s : String) : String :=
  String.mk (s.data.map Char.toLower)

/-- The filter applied to inbound request headers in `_proxy_request`
(line 78): `header.lower() not in ['host', 'connection', 'content-length']`.
Note this set does NOT contain `transfer-encoding`. -/
def is_request_filtered (name : String) : Bool :=
  lower_str name == "host" || lower_str name == "connection" ||
    lower_str name == "content-length"

/-- The headers placed on the outbound request by `_proxy_request`. -/
def outbound_headers (hs : List (String × String)) :
    List (String × String) :=
  hs.filter (fun p => ! is_request_filtered p.1)

/-- A body handed to `_send_response`: a Python `str` or `bytes` value. -/
inductive Content where
  | str : String → Content
  | bytes : List Nat → Content
deriving DecidableEq, Repr

/-- The byte length of the body as written to the socket: a `str` is
UTF-8 encoded first, `bytes` are written as-is. -/
def content_byte_length : Content → Nat
  | Content.str s => s.utf8ByteSize
  | Content.bytes b => b.length

/-- The fallback Content-Type chosen by `_send_response` from the body's
Python type. -/
def default_content_type : Content → String
  | Content.str _ => "text/plain; charset=utf-8"
  | Content.bytes _ => "application/json"

/-- Exact-key lookup in a header dict (Python `headers['Content-Type']`
after an exact-key membership test). -/
def lookup_header (hs : List (String × String)) (k : String) :
    Option String :=
  (hs.find? (fun p => p.1 == k)).map Prod.snd

/-- The `elif headers and 'Content-Type' in headers` branch of
`_send_response`, together with its `else` fallback. -/
def header_content_type (content : Content)
    (headers : Option (List (String × String))) : String :=
  match headers with
  | some hs =>
    match lookup_header hs "Content-Type" with
    | some v => v
    | none => default_content_type content
  | none => default_content_type content

/-- The Content-Type `_send_response` sends: the explicit `content_type`
argument when truthy, else the forwarded header, else the fallback. -/
def chosen_content_type (content : Content)
    (headers : Option (List (String × String)))
    (content_type : Option String) : String :=
  match content_type with
  | some t => if t = "" then header_content_type content headers else t
  | none => header_content_type content headers

/-- The filter applied to relayed response headers in `_send_response`
(line 119): `header.lower() not in
['content-type', 'content-length', 'transfer-encoding']`.
Note this set does NOT contain `host` or `connection`. -/
def is_response_filtered (name : String) : Bool :=
  lower_str name == "content-type" || lower_str name == "content-length" ||
    lower_str name == "transfer-encoding"

/-- The downstream headers `_send_response` copies through verbatim. -/
def copied_response_headers
    (headers : Option (List (String × String))) :
    List (String × String) :=
  (headers.getD []).filter (fun p => ! is_response_filtered p.1)

/-- Everything `ProxyHandler._send_response` writes for one response:
status line, the chosen Content-Type, the verbatim-copied downstream
headers, the recomputed Content-Length header value, and the body. -/
structure SentResponse where
  status : Nat
  content_type : String
  copied_headers : List (String × String)
  content_length_header : String
  body : Content
deriving DecidableEq, Repr

/-- `ProxyHandler._send_response`. -/
def send_response (status : Nat) (content : Content)
    (headers : Option (List (String × String)))
    (content_type : Option String) : SentResponse :=
  { status := status
    content_type := chosen_content_type content headers content_type
    copied_headers := copied_response_headers headers
    content_length_header := toString (content_byte_length content)
    body := content }

/-- `ProxyHandler._send_error_response`: status plus a JSON-style body
pairing the key "error" with the message, Content-Type application/json. -/
def send_error_response (status : Nat) (message : String) : SentResponse :=
  send_response status
    (Content.str ("\x7b\"error\": \"" ++ message ++ "\"\x7d"))
    none (some "application/json")

/-- The outcome of the downstream call made in `_proxy_request`:
success with status/headers/content, a `requests.exceptions.RequestException`
(transport failure, connection refusal, timeout), or any other exception. -/
inductive RelayOutcome where
  | success : Nat → List (String × String) → List Nat → RelayOutcome
  | requestException : String → RelayOutcome
  | otherException : String → RelayOutcome
deriving DecidableEq, Repr

/-- `ProxyHandler._proxy_request` after the outbound call: relay the
downstream response, or map the failure to exactly one error response. -/
def proxy_request (target_url : String) (outcome : RelayOutcome) :
    SentResponse :=
  match outcome with
  | RelayOutcome.success status hdrs content =>
      send_response status (Content.bytes content) (some hdrs) none
  | RelayOutcome.requestException msg =>
      send_error_response 502 ("Bad Gateway: " ++ msg)
  | RelayOutcome.otherException _ =>
      send_error_response 500 "Internal Server Error"

/-- C6 counterexample: a Transfer-Encoding header on the inbound request
IS copied verbatim onto the outbound request (the filter at line 78 only
drops host, connection and content-length), and a Connection header on
the downstream response IS copied verbatim onto the relayed response
(the filter at line 119 only drops content-type, content-length and
transfer-encoding). -/
theorem hop_by_hop_copied_counterexample :
    outbound_headers [("Transfer-Encoding", "chunked")] =
      [("Transfer-Encoding", "chunked")] ∧
    copied_response_headers (some [("Connection", "keep-alive")]) =
      [("Connection", "keep-alive")] := by
  decide

/-- C6 (amended): the outbound request never copies Host, Connection or
Content-Length and preserves every other inbound header unchanged; the
relayed response never copies Content-Length or Transfer-Encoding
verbatim; and the relayed response's Content-Length is recomputed to the
byte length of the actual relayed body. -/
theorem relay_header_filtering (hs rh : List (String × String))
    (status : Nat) (b : List Nat) :
    (∀ p ∈ outbound_headers hs, is_request_filtered p.1 = false) ∧
    (∀ p ∈ hs, is_request_filtered p.1 = false → p ∈ outbound_headers hs) ∧
    (∀ p ∈ (send_response status (Content.bytes b) (some rh)
        none).copied_headers,
      lower_str p.1 ≠ "content-length" ∧
        lower_str p.1 ≠ "transfer-encoding") ∧
    (send_response status (Content.bytes b) (some rh)
        none).content_length_header = toString b.length := by
  refine ⟨?_, ?_, ?_, rfl⟩
  · intro p hp
    have := (List.mem_filter.mp hp).2
    simpa using this
  · intro p hp hf
    exact List.mem_filter.mpr ⟨hp, by simp [hf]⟩
  · intro p hp
    have := (List.mem_filter.mp hp).2
    simp only [Bool.not_eq_true', is_response_filtered,
      Bool.or_eq_false_iff, beq_eq_false_iff_ne] at this
    exact ⟨this.1.2, this.2⟩

/-- Witness for C6 (amended) at concrete header lists and body. -/
theorem relay_header_filtering_witness :
    (∀ p ∈ outbound_headers [("Host", "h"), ("Accept", "text/html")],
      is_request_filtered p.1 = false) ∧
    (∀ p ∈ [("Host", "h"), ("Accept", "text/html")],
      is_request_filtered p.1 = false →
        p ∈ outbound_headers [("Host", "h"), ("Accept", "text/html")]) ∧
    (∀ p ∈ (send_response 200 (Content.bytes [104, 105])
        (some [("Content-Length", "99"), ("X-Trace", "1")])
        none).copied_headers,
      lower_str p.1 ≠ "content-length" ∧
        lower_str p.1 ≠ "transfer-encoding") ∧
    (send_response 200 (Content.bytes [104, 105])
        (some [("Content-Length", "99"), ("X-Trace", "1")])
        none).content_length_header = toString ([104, 105] : List Nat).length :=
  relay_header_filtering [("Host", "h"), ("Accept", "text/html")]
    [("Content-Length", "99"), ("X-Trace", "1")] 200 [104, 105]

/-- C7: a RequestException while contacting the destination yields
exactly one 502 response whose body is the JSON error object carrying the
failure reason; any other exception yields exactly one 500 response with
the generic JSON error body.  `proxy_request` is a total function into
`SentResponse`, so the failure never escapes the handler. -/
theorem relay_error_mapping (target_url : String) (msg : String) :
    ((proxy_request target_url (RelayOutcome.requestException msg)).status =
        502 ∧
      (proxy_request target_url (RelayOutcome.requestException msg)).body =
        Content.str
          ("\x7b\"error\": \"" ++ ("Bad Gateway: " ++ msg) ++ "\"\x7d")) ∧
    ((proxy_request target_url (RelayOutcome.otherException msg)).status =
        500 ∧
      (proxy_request target_url (RelayOutcome.otherException msg)).body =
        Content.str "\x7b\"error\": \"Internal Server Error\"\x7d") :=
  ⟨⟨rfl, rfl⟩, ⟨rfl, rfl⟩⟩

end Proxy

namespace Events

/-- The three POST endpoints of the events service
(`create_movie_event`, `create_user_event`, `create_payment_event`). -/
inductive EventCategory where
  | movie : EventCategory
  | user : EventCategory
  | payment : EventCategory
deriving DecidableEq, Repr

/-- The `required_fields` list of each handler. -/
def required_fields : EventCategory → List String
  | EventCategory.movie => ["movie_id", "title", "action"]
  | EventCategory.user => ["user_id", "action", "timestamp"]
  | EventCategory.payment =>
      ["payment_id", "user_id", "amount", "status", "timestamp"]

/-- The category prefix of each handler's f-string event id. -/
def category_name : EventCategory → String
  | EventCategory.movie => "movie"
  | EventCategory.user => "user"
  | EventCategory.payment => "payment"

/-- The entity-id field interpolated right after the category in the
event id: `movie_id`, `user_id`, `payment_id`. -/
def entity_field : EventCategory → String
  | EventCategory.movie => "movie_id"
  | EventCategory.user => "user_id"
  | EventCategory.payment => "payment_id"

/-- The second field interpolated into the event id: `action` for movie
and user events, `status` for payment events. -/
def detail_field : EventCategory → String
  | EventCategory.movie => "action"
  | EventCategory.user => "action"
  | EventCategory.payment => "status"

/-- A parsed JSON body, with values in their interpolated string form. -/
abbrev JsonObject := List (String × String)

/-- Python `field in data` on the parsed dict. -/
def has_field (data : JsonObject) (k : String) : Bool :=
  data.any (fun p => p.1 == k)

/-- Python `data[field]`, defined on present fields. -/
def get_field (data : JsonObject) (k : String) : String :=
  ((data.find? (fun p => p.1 == k)).map Prod.snd).getD ""

/-- The handlers' validation loop: the first required field missing from
the body, if any (`for field in required_fields: if field not in data`). -/
def find_missing (data : JsonObject) (reqs : List String) : Option String :=
  reqs.find? (fun f => ! has_field data f)

/-- The event id built by each handler:
category, entity id, detail field and an 8-hex-digit uuid fragment,
joined by dashes. -/
def event_id_for (c : EventCategory) (data : JsonObject) (uuid8 : String) :
    String :=
  category_name c ++ "-" ++ get_field data (entity_field c) ++ "-" ++
    get_field data (detail_field c) ++ "-" ++ uuid8

/-- Outcome of `producer.send(...).get(timeout=10)`: success with
partition and offset, a KafkaError, or any other exception. -/
inductive PublishOutcome where
  | ok : Nat → Nat → PublishOutcome
  | kafkaError : String → PublishOutcome
  | otherException : String → PublishOutcome
deriving DecidableEq, Repr

/-- What one events-service handler returns: HTTP status, the error
message when the body is an error object, the event id when created, and
whether `producer.send` was reached at all. -/
structure EventsReply where
  status : Nat
  error : Option String
  event_id : Option String
  send_attempted : Bool
deriving DecidableEq, Repr

/-- The common shape of `create_movie_event` / `create_user_event` /
`create_payment_event`: reject a falsy body, reject on the first missing
required field (before any publish), else build the event id and publish,
mapping publish failures to 500. -/
def create_event (c : EventCategory) (data : JsonObject) (uuid8 : String)
    (pub : PublishOutcome) : EventsReply :=
  if data.isEmpty then
    ⟨400, some "Request body is required", none, false⟩
  else
    match find_missing data (required_fields c) with
    | some f => ⟨400, some ("Missing required field: " ++ f), none, false⟩
    | none =>
      match pub with
      | PublishOutcome.ok _ _ =>
          ⟨201, none, some (event_id_for c data uuid8), true⟩
      | PublishOutcome.kafkaError _ =>
          ⟨500, some "Failed to send event to Kafka", none, true⟩
      | PublishOutcome.otherException _ =>
          ⟨500, some "Internal server error", none, true⟩

/-- If exactly one required field is missing, the validation loop names
precisely that field. -/
theorem find_missing_of_unique (data : JsonObject) (reqs : List String)
    (f : String) (hf : f ∈ reqs) (hmiss : has_field data f = false)
    (hoth : ∀ g ∈ reqs, g ≠ f → has_field data g = true) :
    find_missing data reqs = some f := by
  induction reqs with
  | nil => cases hf
  | cons a tl ih =>
    by_cases haf : a = f
    · subst haf
      simp [find_missing, List.find?_cons, hmiss]
    · have ha : has_field data a = true :=
        hoth a (List.mem_cons_self a tl) haf
      have hf' : f ∈ tl := by
        rcases List.mem_cons.mp hf with h | h
        · exact absurd h.symm haf
        · exact h
      have htl :=
        ih hf' (fun g hg hgf => hoth g (List.mem_cons_of_mem a hg) hgf)
      simpa [find_missing, List.find?_cons, ha] using htl

/-- C8: for each event category, a non-empty body with every required
field present whose publish succeeds yields 201 with an event id prefixed
by the category and the entity id; a body missing exactly one required
field yields 400 naming that field, and `producer.send` is never
reached. -/
theorem event_creation_validation (c : EventCategory) (data : JsonObject)
    (uuid8 : String) (part off : Nat) (f : String) (pub : PublishOutcome)
    (hne : data.isEmpty = false) :
    (find_missing data (required_fields c) = none →
      (create_event c data uuid8 (PublishOutcome.ok part off)).status =
          201 ∧
        ∃ rest,
          (create_event c data uuid8 (PublishOutcome.ok part off)).event_id =
            some (category_name c ++ "-" ++
              get_field data (entity_field c) ++ "-" ++ rest)) ∧
    (f ∈ required_fields c → has_field data f = false →
      (∀ g ∈ required_fields c, g ≠ f → has_field data g = true) →
      (create_event c data uuid8 pub).status = 400 ∧
        (create_event c data uuid8 pub).error =
          some ("Missing required field: " ++ f) ∧
        (create_event c data uuid8 pub).send_attempted = false) := by
  constructor
  · intro hnone
    refine ⟨?_, get_field data (detail_field c) ++ "-" ++ uuid8, ?_⟩
    · simp [create_event, hne, hnone]
    · simp [create_event, hne, hnone, event_id_for, String.append_assoc]
  · intro hf hmiss hoth
    have hsome : find_missing data (required_fields c) = some f :=
      find_missing_of_unique data (required_fields c) f hf hmiss hoth
    simp [create_event, hne, hsome]

/-- Witness for C8: a complete movie body yields 201 with a
`movie-<movie_id>-` prefixed id; a movie body lacking only `action`
yields 400 naming `action` without reaching the producer. -/
theorem event_creation_validation_witness :
    ((create_event EventCategory.movie
        [("movie_id", "7"), ("title", "T"), ("action", "created")] "abcd1234"
        (PublishOutcome.ok 0 0)).status = 201 ∧
      ∃ rest,
        (create_event EventCategory.movie
          [("movie_id", "7"), ("title", "T"), ("action", "created")]
          "abcd1234" (PublishOutcome.ok 0 0)).event_id =
          some (category_name EventCategory.movie ++ "-" ++
            get_field [("movie_id", "7"), ("title", "T"), ("action", "created")]
              (entity_field EventCategory.movie) ++ "-" ++ rest)) ∧
    ((create_event EventCategory.movie
        [("movie_id", "7"), ("title", "T")] "abcd1234"
        (PublishOutcome.ok 0 0)).status = 400 ∧
      (create_event EventCategory.movie
        [("movie_id", "7"), ("title", "T")] "abcd1234"
        (PublishOutcome.ok 0 0)).error =
        some ("Missing required field: " ++ "action") ∧
      (create_event EventCategory.movie
        [("movie_id", "7"), ("title", "T")] "abcd1234"
        (PublishOutcome.ok 0 0)).send_attempted = false) :=
  ⟨(event_creation_validation EventCategory.movie
      [("movie_id", "7"), ("title", "T"), ("action", "created")] "abcd1234"
      0 0 "action" (PublishOutcome.ok 0 0) (by decide)).1 (by decide),
   (event_creation_validation EventCategory.movie
      [("movie_id", "7"), ("title", "T")] "abcd1234"
      0 0 "action" (PublishOutcome.ok 0 0) (by decide)).2 (by decide)
      (by decide) (by decide)⟩

end Events
